import Mathlib

/-!
Verification development for the NBADASH repository (Hot Shot Props).

Shallow embedding of the Python sources:
  * `scripts/apply_predictions.py` — edge computation and `run_model_predictions`
  * `models/prop_model.py`         — `prepare_training_data`
  * `scripts/fetch_oddsapi.py`, `scripts/fetch_games.py`,
    `scripts/fetch_prizepicks.py`, `scripts/fetch_fanduel.py` — source adapters
  * `app.py`                       — data-fetch sequence and odds-input selection

Numeric columns are embedded as rationals; where numpy IEEE-754 special values
(infinity, NaN) are observable — the vectorized edge computation — values are
embedded as `PyFloat`, rationals extended with `pinf`, `ninf` and `nan`.
Python exceptions are embedded as `Except String`; a function that can raise
returns `.error msg` on the raising path.
-/

namespace NBADASH

/-- A numpy float64 value as observed by the edge computation: a finite value
(embedded exactly as a rational), plus the IEEE special values.  Vectorized
numpy arithmetic never raises; it produces these special values instead. -/
inductive PyFloat where
  | fin (q : ℚ)
  | pinf
  | ninf
  | nan
deriving DecidableEq

/-- IEEE subtraction on `PyFloat` (numpy elementwise `-`). -/
def PyFloat.sub : PyFloat → PyFloat → PyFloat
  | .fin a, .fin b => .fin (a - b)
  | .fin _, .pinf => .ninf
  | .fin _, .ninf => .pinf
  | .pinf, .fin _ => .pinf
  | .ninf, .fin _ => .ninf
  | .pinf, .ninf => .pinf
  | .ninf, .pinf => .ninf
  | .pinf, .pinf => .nan
  | .ninf, .ninf => .nan
  | .nan, _ => .nan
  | _, .nan => .nan

/-- IEEE multiplication on `PyFloat` (numpy elementwise `*`). -/
def PyFloat.mul : PyFloat → PyFloat → PyFloat
  | .fin a, .fin b => .fin (a * b)
  | .fin a, .pinf => if 0 < a then .pinf else if a < 0 then .ninf else .nan
  | .fin a, .ninf => if 0 < a then .ninf else if a < 0 then .pinf else .nan
  | .pinf, .fin b => if 0 < b then .pinf else if b < 0 then .ninf else .nan
  | .ninf, .fin b => if 0 < b then .ninf else if b < 0 then .pinf else .nan
  | .pinf, .pinf => .pinf
  | .pinf, .ninf => .ninf
  | .ninf, .pinf => .ninf
  | .ninf, .ninf => .pinf
  | .nan, _ => .nan
  | _, .nan => .nan

/-- IEEE division on `PyFloat` (numpy elementwise `/`).  Division of a finite
value by (positive) zero yields an infinity of the numerator sign, and `0/0`
yields `nan`; numpy emits a warning, not an exception. -/
def PyFloat.div : PyFloat → PyFloat → PyFloat
  | .fin a, .fin b =>
      if b ≠ 0 then .fin (a / b)
      else if 0 < a then .pinf
      else if a < 0 then .ninf
      else .nan
  | .fin _, .pinf => .fin 0
  | .fin _, .ninf => .fin 0
  | .pinf, .fin b => if b < 0 then .ninf else .pinf
  | .ninf, .fin b => if b < 0 then .pinf else .ninf
  | .pinf, .pinf => .nan
  | .pinf, .ninf => .nan
  | .ninf, .pinf => .nan
  | .ninf, .ninf => .nan
  | .nan, _ => .nan
  | _, .nan => .nan

/-- IEEE absolute value on `PyFloat` (numpy `np.abs`). -/
def PyFloat.abs : PyFloat → PyFloat
  | .fin a => .fin |a|
  | .pinf => .pinf
  | .ninf => .pinf
  | .nan => .nan

/-- `true` exactly on `nan` (a missing/undefined numeric cell). -/
def PyFloat.isNan : PyFloat → Bool
  | .nan => true
  | _ => false

/-- Round a rational to the nearest integer, ties to even — the rounding rule
of `np.round`. -/
def roundHalfEven (q : ℚ) : ℤ :=
  if q - ⌊q⌋ < 1/2 then ⌊q⌋
  else if (1:ℚ)/2 < q - ⌊q⌋ then ⌊q⌋ + 1
  else if ⌊q⌋ % 2 = 0 then ⌊q⌋ else ⌊q⌋ + 1

/-- `np.round(x, 2)`: round to two decimal places; special values pass through. -/
def npRound2 : PyFloat → PyFloat
  | .fin q => .fin ((roundHalfEven (q * 100) : ℚ) / 100)
  | .pinf => .pinf
  | .ninf => .ninf
  | .nan => .nan

/-- `np.round(x, 1)`: round to one decimal place; special values pass through. -/
def npRound1 : PyFloat → PyFloat
  | .fin q => .fin ((roundHalfEven (q * 10) : ℚ) / 10)
  | .pinf => .pinf
  | .ninf => .ninf
  | .nan => .nan

/-- `apply_predictions.py` line 101-103:
`out["edge_pct"] = np.round(np.abs(out["model_projection"] - out["line"]) / out["line"] * 100, 2)`. -/
def edge_pct_formula (proj line : PyFloat) : PyFloat :=
  npRound2 (PyFloat.mul (PyFloat.div (PyFloat.abs (PyFloat.sub proj line)) line) (.fin 100))

/-- `apply_predictions.py` line 104:
`out["expected_value_over"] = (out["model_projection"] - out["line"]) * 1.5`. -/
def expected_value_over_formula (proj line : PyFloat) : PyFloat :=
  PyFloat.mul (PyFloat.sub proj line) (.fin (3/2))

/-- `apply_predictions.py` line 105:
`out["expected_value_under"] = (out["line"] - out["model_projection"]) * 1.5`. -/
def expected_value_under_formula (proj line : PyFloat) : PyFloat :=
  PyFloat.mul (PyFloat.sub line proj) (.fin (3/2))

/-! ### `scripts/apply_predictions.py` — features and `run_model_predictions` -/

/-- One player game-log row as consumed by `build_recent_features`
(`get_player_stats_summary` columns used there).  Dates are embedded as
integers (`pd.to_datetime` is order-preserving); stat cells are NaN-free
rationals, as NBA box-score columns are. -/
structure StatLog where
  GAME_DATE : ℤ
  PTS : ℚ
  REB : ℚ
  AST : ℚ
  FG3M : ℚ
deriving DecidableEq

/-- The dictionary returned by `build_recent_features` (a feature row of
`feat_df`).  `recent_mean`, `recent_std` and `last_game` are always defined in
the source: the mean of a nonempty NaN-free series, the guarded std, and
`iloc[0]`; so they are plain rationals and the later `fillna(0)` is a no-op. -/
structure Feature where
  player : String
  prop_type : String
  recent_mean : ℚ
  recent_std : ℚ
  last_game : ℚ
  games_used : ℕ
deriving DecidableEq

/-- External collaborators of `run_model_predictions`, treated as black boxes
exactly where the source calls into libraries:
  * `logsOf`      — `get_player_stats_summary(player)` (nba_api fetch + cache);
  * `stdFn`       — `pandas.Series.std()` (sample standard deviation, a square
                    root, hence not a rational-valued formula);
  * `fitPredict`  — `Pipeline([StandardScaler, Ridge]).fit(X, y).predict(X)`;
    sklearn guarantees one prediction per row of `X` (`fitPredict_length`). -/
structure Ctx where
  logsOf : String → List StatLog
  stdFn : List ℚ → ℚ
  fitPredict : List (ℚ × ℚ × ℚ) → List ℚ → List ℚ
  fitPredict_length : ∀ X y, (fitPredict X y).length = X.length

/-- `sort_values(by="GAME_DATE", ascending=False)` comparator. -/
def dateDesc (x y : StatLog) : Prop := y.GAME_DATE ≤ x.GAME_DATE

instance : DecidableRel dateDesc := fun _x _y => inferInstanceAs (Decidable (_ ≤ _))

/-- Mean of a list of rationals (`Series.mean()` on a NaN-free series). -/
def listMean (xs : List ℚ) : ℚ := xs.sum / xs.length

/-- `build_recent_features(player_name, prop_type, n_games=10)` from
`apply_predictions.py` lines 22-58: fetch logs; map the prop type to a stat
column via `col_map` (computing `PRA` on demand); return `None` for empty logs
or an unmapped column; otherwise sort by date descending, keep the latest 10
games, and aggregate. -/
def build_recent_features (ctx : Ctx) (player_name prop_type : String) : Option Feature :=
  let logs := ctx.logsOf player_name
  if logs.isEmpty then none
  else
    let colVal : Option (StatLog → ℚ) :=
      match prop_type with
      | "PTS" => some (fun r => r.PTS)
      | "REB" => some (fun r => r.REB)
      | "AST" => some (fun r => r.AST)
      | "PRA" => some (fun r => r.PTS + r.REB + r.AST)
      | "3PM" => some (fun r => r.FG3M)
      | _ => none
    match colVal with
    | none => none
    | some v =>
      let recent := (logs.insertionSort dateDesc).take 10
      let series := recent.map v
      some
        { player := player_name
          prop_type := prop_type
          recent_mean := listMean series
          recent_std := if 1 < recent.length then ctx.stdFn series else 0
          last_game := series.headD 0
          games_used := recent.length }

/-- One row of the `fanduel_df` argument as used by `run_model_predictions`
(columns `player`, `prop_type`, `line`). -/
structure PropRow where
  player : String
  prop_type : String
  line : ℚ
deriving DecidableEq

/-- `X = feat_df[["recent_mean", "recent_std", "last_game"]].fillna(0)` —
`fillna(0)` is the identity here since no feature cell is NaN (see `Feature`). -/
def trainX (features : List Feature) : List (ℚ × ℚ × ℚ) :=
  features.map (fun f => (f.recent_mean, f.recent_std, f.last_game))

/-- `y = feat_df["recent_mean"]` — the regression target column. -/
def trainY (features : List Feature) : List ℚ :=
  features.map (fun f => f.recent_mean)

/-- A row of the output DataFrame `out` of `run_model_predictions`, after the
left merge and the derived columns.  `feat` is `some` when the left-merge row
matched a `feat_df` row, `none` when every merged feature cell is NaN.
`idx` is the pandas row index label. -/
structure OutRow where
  player : String
  prop_type : String
  line : ℚ
  feat : Option Feature
  model_projection : PyFloat
  edge_pct : PyFloat
  expected_value_over : PyFloat
  expected_value_under : PyFloat
  idx : ℕ
deriving DecidableEq

/-- Sort tier of an `edge_pct` cell under
`sort_values("edge_pct", ascending=False)`: `+inf` first, then finite values,
then `-inf`, with NaN always last (`na_position="last"`). -/
def edgeRank : PyFloat → ℕ
  | .pinf => 0
  | .fin _ => 1
  | .ninf => 2
  | .nan => 3

/-- Within the finite tier, descending order is ascending order of the negated
value. -/
def edgeNegVal : PyFloat → ℚ
  | .fin q => -q
  | _ => 0

/-- The row comparator realized by `out.sort_values("edge_pct", ascending=False)`
(descending on the IEEE order of defined values, NaN rows last). -/
def rowLE (a b : OutRow) : Prop :=
  edgeRank a.edge_pct < edgeRank b.edge_pct ∨
    (edgeRank a.edge_pct = edgeRank b.edge_pct ∧ edgeNegVal a.edge_pct ≤ edgeNegVal b.edge_pct)

instance : DecidableRel rowLE := fun _x _y => inferInstanceAs (Decidable (_ ∨ _))

instance : IsTotal OutRow rowLE :=
  ⟨fun a b => by
    unfold rowLE
    rcases lt_trichotomy (edgeRank a.edge_pct) (edgeRank b.edge_pct) with h | h | h
    · exact Or.inl (Or.inl h)
    · rcases le_total (edgeNegVal a.edge_pct) (edgeNegVal b.edge_pct) with h2 | h2
      · exact Or.inl (Or.inr ⟨h, h2⟩)
      · exact Or.inr (Or.inr ⟨h.symm, h2⟩)
    · exact Or.inr (Or.inl h)⟩

instance : IsTrans OutRow rowLE :=
  ⟨fun a b c hab hbc => by
    unfold rowLE at *
    rcases hab with h1 | ⟨h1, h1v⟩ <;> rcases hbc with h2 | ⟨h2, h2v⟩
    · exact Or.inl (h1.trans h2)
    · exact Or.inl (h2 ▸ h1)
    · exact Or.inl (h1 ▸ h2)
    · exact Or.inr ⟨h1.trans h2, h1v.trans h2v⟩⟩

/-- `reset_index(drop=True)` starting from label `k`: relabel rows `k, k+1, …`. -/
def resetIndexFrom (k : ℕ) : List OutRow → List OutRow
  | [] => []
  | r :: rs => { r with idx := k } :: resetIndexFrom (k + 1) rs

/-- `out.reset_index(drop=True)`. -/
def reset_index (l : List OutRow) : List OutRow := resetIndexFrom 0 l

/-- Build one output row: positional assignment of the rounded prediction
(`out["model_projection"] = np.round(preds, 1)`) followed by the vectorized
edge/EV columns (`apply_predictions.py` lines 100-105). -/
def mkOutRow (i : ℕ) (row : PropRow) (f : Option Feature) (pred : ℚ) : OutRow :=
  let proj := npRound1 (.fin pred)
  { player := row.player
    prop_type := row.prop_type
    line := row.line
    feat := f
    model_projection := proj
    edge_pct := edge_pct_formula proj (.fin row.line)
    expected_value_over := expected_value_over_formula proj (.fin row.line)
    expected_value_under := expected_value_under_formula proj (.fin row.line)
    idx := i }

/-- `fanduel_df.merge(feat_df, on=["player", "prop_type"], how="left")`:
every left row is kept; a left row joins once per matching feature row, or
yields a single all-NaN-features row when nothing matches.  Left row order is
preserved and the result gets a fresh range index. -/
def leftMerge (fanduel_df : List PropRow) (features : List Feature) :
    List (PropRow × Option Feature) :=
  fanduel_df.flatMap (fun row =>
    let ms := features.filter (fun f =>
      decide (f.player = row.player ∧ f.prop_type = row.prop_type))
    if ms.isEmpty then [(row, none)] else ms.map (fun f => (row, some f)))

/-- Result of `run_model_predictions`, instrumented with the arguments of the
single `model.fit(X, y)` call (`fitCalled = false` on the early returns, where
no model is fit). -/
structure RunResult where
  fitCalled : Bool
  fitX : List (ℚ × ℚ × ℚ)
  fitY : List ℚ
  rows : List OutRow
deriving DecidableEq

instance : Inhabited RunResult := ⟨⟨false, [], [], []⟩⟩

/-- `run_model_predictions(fanduel_df, games_df=None)` from
`apply_predictions.py` lines 64-114 (`games_df` is never read by the body and
is omitted).  Early returns for an empty input or an empty feature list;
otherwise fit/predict, left-merge the features back onto the odds, assign the
predictions column — pandas raises `ValueError` when the assigned array length
differs from the frame length — derive the edge columns, sort by `edge_pct`
descending (NaN last) and reset the index. -/
def run_model_predictions (ctx : Ctx) (fanduel_df : List PropRow) :
    Except String RunResult :=
  if fanduel_df.isEmpty then .ok default
  else
    let features := fanduel_df.filterMap (fun row =>
      build_recent_features ctx row.player row.prop_type)
    if features.isEmpty then .ok default
    else
      let X := trainX features
      let y := trainY features
      let preds := ctx.fitPredict X y
      let merged := leftMerge fanduel_df features
      if preds.length ≠ merged.length then
        .error "ValueError: Length of values does not match length of index"
      else
        let out0 := (merged.zip preds).enum.map
          (fun p => mkOutRow p.1 p.2.1.1 p.2.1.2 p.2.2)
        .ok { fitCalled := true
              fitX := X
              fitY := y
              rows := reset_index (List.insertionSort rowLE out0) }

/-! ### `models/prop_model.py` — `prepare_training_data` -/

/-- One player game-log row as consumed by `prepare_training_data`
(columns `PTS`, `REB`, `AST`, `FG3M`, `MIN`); cells are NaN-free rationals. -/
structure LogRow where
  PTS : ℚ
  REB : ℚ
  AST : ℚ
  FG3M : ℚ
  MIN : ℚ
deriving DecidableEq

instance : Inhabited LogRow := ⟨⟨0, 0, 0, 0, 0⟩⟩

/-- The columns of the DataFrame passed to `prepare_training_data`. -/
def logColumns : List String := ["PTS", "REB", "AST", "FG3M", "MIN"]

/-- Cell of a log row in a named column. -/
def LogRow.cell (r : LogRow) : String → ℚ
  | "PTS" => r.PTS
  | "REB" => r.REB
  | "AST" => r.AST
  | "FG3M" => r.FG3M
  | "MIN" => r.MIN
  | _ => 0

/-- `Series.rolling(5).mean()` at row position `i`: NaN (`none`) until the
window is full, then the mean of positions `i-4 … i`. -/
def rollingMean5At (xs : List ℚ) (i : ℕ) : Option ℚ :=
  if 5 ≤ i + 1 then some (listMean ((xs.take (i + 1)).drop (i + 1 - 5))) else none

/-- Row `i` of the frame after the five rolling-mean columns are added
(`prop_model.py` lines 33-37). -/
def augRow (df : List LogRow) (i : ℕ) :
    LogRow × Option ℚ × Option ℚ × Option ℚ × Option ℚ × Option ℚ :=
  (df.getD i default,
   rollingMean5At (df.map (fun r => r.PTS)) i,
   rollingMean5At (df.map (fun r => r.REB)) i,
   rollingMean5At (df.map (fun r => r.AST)) i,
   rollingMean5At (df.map (fun r => r.FG3M)) i,
   rollingMean5At (df.map (fun r => r.MIN)) i)

/-- `df.dropna()` over the augmented frame: keep exactly the rows where every
rolling cell is defined (the raw stat cells and the `PRA` column are NaN-free). -/
def droppedRows (df : List LogRow) : List (LogRow × ℚ × ℚ × ℚ × ℚ × ℚ) :=
  (List.range df.length).filterMap (fun i =>
    match augRow df i with
    | (r, some a, some b, some c, some d, some e) => some (r, a, b, c, d, e)
    | _ => none)

/-- `prepare_training_data(df, target_col)` from `prop_model.py` lines 24-49:
raise `ValueError` for an empty frame or a target column not among the frame
columns (note `PRA` is only added *after* this check, so `target_col="PRA"`
also raises on a raw log frame); otherwise add the five 5-game rolling means
and the `PRA` column, drop the rows with NaN cells, and return the feature
matrix `X` (five rolling means plus `PRA`) and the target column `y`. -/
def prepare_training_data (df : List LogRow) (target_col : String) :
    Except String (List (ℚ × ℚ × ℚ × ℚ × ℚ × ℚ) × List ℚ) :=
  if df.isEmpty ∨ target_col ∉ logColumns then
    .error "ValueError: Missing target column"
  else
    let kept := droppedRows df
    let X := kept.map (fun k => (k.2.1, k.2.2.1, k.2.2.2.1, k.2.2.2.2.1, k.2.2.2.2.2,
      k.1.PTS + k.1.REB + k.1.AST))
    let y := kept.map (fun k => k.1.cell target_col)
    .ok (X, y)

/-! ### Source adapters — HTTP environment model -/

/-- Outcome of one `requests.get(...)` call together with body decoding:
either the request raised (connectivity failure), or a response arrived with a
status code and a `.json()` outcome (`.error` = malformed payload). -/
inductive HttpOutcome (β : Type) where
  | connError (msg : String)
  | response (status : ℕ) (body : Except String β)

/-- The failure environments named by the spec: connectivity failure,
non-success status code, malformed payload. -/
def httpFailure {β : Type} : HttpOutcome β → Bool
  | .connError _ => true
  | .response status body => status ≠ 200 || !body.toBool

/-! ### `scripts/fetch_oddsapi.py` — `fetch_oddsapi_data` -/

/-- Substring test (`"points" in market_key`), via `splitOn`: `pat` occurs in
`s` iff splitting `s` on `pat` yields more than one piece. -/
def strContains (s pat : String) : Bool := (s.splitOn pat).length ≠ 1

/-- One `outcome` object of The Odds API payload. -/
structure OAOutcome where
  name : String
  point : Option ℚ
  price : Option ℤ
deriving DecidableEq

/-- One `market` object of The Odds API payload. -/
structure OAMarket where
  key : String
  outcomes : List OAOutcome
deriving DecidableEq

/-- One `bookmaker` object of The Odds API payload. -/
structure OABookmaker where
  title : String
  markets : List OAMarket
deriving DecidableEq

/-- One game object of The Odds API payload. -/
structure OAGame where
  home_team : String
  away_team : String
  bookmakers : List OABookmaker
deriving DecidableEq

/-- A normalized record produced by `fetch_oddsapi_data`. -/
structure OARec where
  player : String
  prop_type : String
  line : Option ℚ
  odds_over : Option ℤ
  odds_under : Option ℤ
  book : String
  game : String
deriving DecidableEq

/-- `market_key` → `prop_type` mapping (`fetch_oddsapi.py` lines 53-59). -/
def oaPropType (market_key : String) : String :=
  if strContains market_key "points" then "Points"
  else if strContains market_key "rebounds" then "Rebounds"
  else if strContains market_key "assists" then "Assists"
  else if strContains market_key "threes" then "3PM"
  else market_key

/-- `fetch_oddsapi_data()` from `fetch_oddsapi.py` lines 19-88: the whole body
is wrapped in `try/except Exception`, which returns an empty DataFrame, as do
the non-200 branch and the empty-result branch; otherwise the nested
game/bookmaker/market/outcome loops build the normalized records
(`odds_under` is always set to `None` by the source). -/
def fetch_oddsapi_data (env : HttpOutcome (List OAGame)) : Except String (List OARec) :=
  match env with
  | .connError _ => .ok []
  | .response status body =>
    if status ≠ 200 then .ok []
    else
      match body with
      | .error _ => .ok []
      | .ok data =>
        .ok (data.flatMap (fun g =>
          g.bookmakers.flatMap (fun bk =>
            bk.markets.flatMap (fun mk =>
              mk.outcomes.map (fun o =>
                { player := o.name.trim
                  prop_type := oaPropType mk.key
                  line := o.point
                  odds_over := o.price
                  odds_under := none
                  book := bk.title
                  game := g.away_team ++ " @ " ++ g.home_team })))))

/-! ### `scripts/fetch_games.py` — `fetch_games_today` and `load_games_snapshot` -/

/-- A team object of the BallDontLie payload. -/
structure BDLTeam where
  full_name : String
  abbreviation : String
deriving DecidableEq

/-- A game object of the BallDontLie payload (fields read by the source; a
missing required field would raise inside the `try`, which the outer handler
absorbs — subsumed by the malformed-payload case of `HttpOutcome`). -/
structure BDLGame where
  id : ℤ
  home_team : BDLTeam
  visitor_team : BDLTeam
  status : Option String
  date : String
deriving DecidableEq

/-- A normalized game record produced by `fetch_games_today`. -/
structure GameRec where
  game_id : ℤ
  home_team : String
  away_team : String
  home_team_abbrev : String
  away_team_abbrev : String
  status : String
  date : String
deriving DecidableEq

/-- `fetch_games_today()` from `fetch_games.py` lines 18-55: everything that
can raise sits inside `try/except Exception`, which returns an empty
DataFrame; non-200 responses and empty `data` arrays also return empty. -/
def fetch_games_today (env : HttpOutcome (List BDLGame)) : Except String (List GameRec) :=
  match env with
  | .connError _ => .ok []
  | .response status body =>
    if status ≠ 200 then .ok []
    else
      match body with
      | .error _ => .ok []
      | .ok data =>
        if data.isEmpty then .ok []
        else
          .ok (data.map (fun g =>
            { game_id := g.id
              home_team := g.home_team.full_name
              away_team := g.visitor_team.full_name
              home_team_abbrev := g.home_team.abbreviation
              away_team_abbrev := g.visitor_team.abbreviation
              status := g.status.getD "Scheduled"
              date := g.date }))

/-- The on-disk `games_today.json` snapshot: present with a byte size and a
`json.load` outcome (`.error` = corrupt file), or absent (`none` at the use
site). -/
structure SnapshotFile where
  size : ℕ
  parsed : Except String (List GameRec)

/-- `load_games_snapshot()` from `fetch_games.py` lines 58-70, instrumented
with the number of `fetch_games_today()` calls it makes: a missing file or one
under 10 bytes refetches; a `json.load` failure is caught and refetches; an
empty parsed frame refetches; only a nonempty parsed frame is returned as is. -/
def load_games_snapshot (fs : Option SnapshotFile) (fetchEnv : HttpOutcome (List BDLGame)) :
    Except String (List GameRec) × ℕ :=
  match fs with
  | none => (fetch_games_today fetchEnv, 1)
  | some f =>
    if f.size < 10 then (fetch_games_today fetchEnv, 1)
    else
      match f.parsed with
      | .error _ => (fetch_games_today fetchEnv, 1)
      | .ok data =>
        if data.isEmpty then (fetch_games_today fetchEnv, 1) else (.ok data, 0)

/-! ### `scripts/fetch_prizepicks.py` — `fetch_prizepicks_data` -/

/-- Attributes of one PrizePicks projection (`proj["attributes"]` fields read
via `.get`, hence optional where the source tolerates absence). -/
structure PPAttr where
  player_id : Option ℤ
  stat_type : String
  line_score : Option ℚ
  league_id : Option ℤ
deriving DecidableEq

/-- One element of the payload `data` array; `attributes := none` models a
projection object without an `"attributes"` key, whose `KeyError` the inner
`try/except` turns into `continue`. -/
structure PPProj where
  attributes : Option PPAttr
deriving DecidableEq

/-- Attributes of an `included` item (only `name` is read). -/
structure PPIncludedAttr where
  name : Option String
deriving DecidableEq

/-- One element of the payload `included` array. -/
structure PPIncluded where
  id : ℤ
  attributes : Option PPIncludedAttr
deriving DecidableEq

/-- The PrizePicks JSON payload. -/
structure PPPayload where
  included : List PPIncluded
  data : List PPProj
deriving DecidableEq

/-- A normalized record produced by `fetch_prizepicks_data`. -/
structure PPRec where
  player : String
  prop_type : String
  line : Option ℚ
  odds_over : ℤ
  odds_under : ℤ
  book : String
  source : String
deriving DecidableEq

/-- Python `str.capitalize()`-per-word: first character upper-cased, rest
lower-cased (the words here are space-separated after `replace("_", " ")`). -/
def capWord (w : String) : String :=
  match w.data with
  | [] => ""
  | c :: cs => String.mk (c.toUpper :: cs.map Char.toLower)

/-- `str.title()` on space-separated text. -/
def pyTitle (s : String) : String :=
  String.intercalate " " ((s.splitOn " ").map capWord)

/-- The `included` dictionary lookup
`{item["id"]: item for item in raw.get("included", []) if "attributes" in item}`
followed by `.get(str(player_id), {}).get("attributes", {}).get("name", …)`;
a dict comprehension keeps the last item per key, hence the reverse search. -/
def ppPlayerName (included : List PPIncluded) (pid : Option ℤ) : Option String :=
  match pid with
  | none => none
  | some pid =>
    match (included.reverse.find? (fun it => it.id == pid && it.attributes.isSome)) with
    | none => none
    | some it => (it.attributes.getD ⟨none⟩).name

/-- `fetch_prizepicks_data()` from `fetch_prizepicks.py` lines 16-73: the body
is wrapped in `try/except Exception` returning empty; non-200 responses return
empty; each projection is built inside an inner `try/except: continue`;
`odds = -119` is the single pseudo-odds constant assigned to both sides, and
`book` is the literal `"PrizePicks"`; only `league_id == 7` rows are kept. -/
def fetch_prizepicks_data (env : HttpOutcome PPPayload) : Except String (List PPRec) :=
  match env with
  | .connError _ => .ok []
  | .response status body =>
    if status ≠ 200 then .ok []
    else
      match body with
      | .error _ => .ok []
      | .ok raw =>
        .ok (raw.data.filterMap (fun proj =>
          match proj.attributes with
          | none => none
          | some attr =>
            if attr.league_id = some 7 then
              some
                { player := ((ppPlayerName raw.included attr.player_id).getD
                    "Unknown Player").trim
                  prop_type := pyTitle (attr.stat_type.replace "_" " ")
                  line := attr.line_score
                  odds_over := -119
                  odds_under := -119
                  book := "PrizePicks"
                  source := "PrizePicks API" }
            else none))

/-! ### `scripts/fetch_fanduel.py` — `fetch_fanduel_props` -/

/-- A record parsed from the FanDuel page by `_parse_props_from_html`. -/
structure FDRec where
  player : Option String
  prop_type : String
  line : Option String
  odds : Option String
deriving DecidableEq

/-- Execution environment of `fetch_fanduel_props`: whether `_init_driver()`
succeeds (it re-raises `WebDriverException` on failure), and what the
scraping/parsing loop would accumulate (every exception inside that loop is
absorbed by its inner `except Exception`). -/
structure FDEnv where
  driverInit : Except String Unit
  scraped : List FDRec

/-- `fetch_fanduel_props()` from `fetch_fanduel.py` lines 290-369.  The body is
a `try/finally` with **no** `except` clause, so exceptions propagate to the
caller:
  * a `_init_driver()` failure (`WebDriverException` re-raised at line 125)
    escapes immediately;
  * every run that survives initialization reaches the snapshot block, whose
    line `"readable_time": datetime.utcnow().isoformat() + "Z"` evaluates the
    name `datetime` — the module imports `os, json, time, logging, typing,
    pathlib, pandas, bs4, selenium, webdriver_manager` but never `datetime` —
    so the function raises `NameError` before its `return df`. -/
def fetch_fanduel_props (env : FDEnv) : Except String (List FDRec) :=
  match env.driverInit with
  | .error e => .error e
  | .ok _ => .error "NameError: name datetime is not defined"

/-! ### `app.py` — data-fetch sequence and odds-input selection -/

/-- The adapters reachable from this repository. -/
inductive Adapter where
  | fanduelScraper
  | ballDontLie
  | oddsAPIGameOdds
  | prizePicks
deriving DecidableEq

/-- A record of `cached_fetch_oddsapi_game_odds` (`app.py` lines 139-163). -/
structure OddsGameRec where
  game : String
  market : String
  team : Option String
  odds : Option ℤ
  point : Option ℚ
deriving DecidableEq

/-- One refresh cycle's fetched data plus the trace of adapter invocations. -/
structure AppCycle where
  fanduel_df : List FDRec
  games_df : List GameRec
  odds_game_df : List OddsGameRec
  invoked : List Adapter

/-- The straight-line data-fetch sequence of `app.py` lines 182-195: (1) the
FanDuel scraper — `cached_fetch_fanduel` and the surrounding `try/except` both
downgrade scraper exceptions to an empty frame — then (2) BallDontLie games,
then (3) OddsAPI game odds.  `app.py` neither imports nor calls the PrizePicks
adapter, so `prizePicks` never appears in the invocation trace. -/
def app_data_fetch (fanduelRes : Except String (List FDRec)) (gamesRes : List GameRec)
    (oddsGameRes : List OddsGameRec) : AppCycle :=
  { fanduel_df := match fanduelRes with | .ok d => d | .error _ => []
    games_df := gamesRes
    odds_game_df := oddsGameRes
    invoked := [.fanduelScraper, .ballDontLie, .oddsAPIGameOdds] }

/-- The odds input handed to the model. -/
inductive InputOdds where
  | props (rows : List FDRec)
  | gameOdds (rows : List OddsGameRec)
  | noneAvailable
deriving DecidableEq

/-- `app.py` lines 233-237:
`if not (fanduel_df.empty and odds_game_df.empty):
   input_odds_df = fanduel_df if not fanduel_df.empty else odds_game_df`. -/
def select_input_odds (fanduel_df : List FDRec) (odds_game_df : List OddsGameRec) :
    InputOdds :=
  if ¬(fanduel_df.isEmpty ∧ odds_game_df.isEmpty) then
    if ¬fanduel_df.isEmpty then .props fanduel_df else .gameOdds odds_game_df
  else .noneAvailable

/-! ### Concrete inputs and derived definitions used by the claim theorems -/

/-- The concrete PrizePicks environment of the C10 witness: one NBA
projection whose player is resolvable in `included`. -/
def ppEnvW : HttpOutcome PPPayload :=
  .response 200 (.ok ⟨[⟨1, some ⟨some "LeBron James"⟩⟩],
    [⟨some ⟨some 1, "points", some 25, some 7⟩⟩]⟩)

/-- The record set the adapter produces in `ppEnvW`. -/
def ppListW : List PPRec := (fetch_prizepicks_data ppEnvW).toOption.getD []

/-- The single record of `ppListW`. -/
def ppRecW : PPRec := ppListW.headD ⟨"", "", none, 0, 0, "", ""⟩

/-- The value a kept row of the augmented frame carries (the row itself and
its five rolling means). -/
def keptBody (df : List LogRow) (i : ℕ) : LogRow × ℚ × ℚ × ℚ × ℚ × ℚ :=
  (df.getD i default,
   listMean (((df.map (fun r => r.PTS)).take (i + 1)).drop (i + 1 - 5)),
   listMean (((df.map (fun r => r.REB)).take (i + 1)).drop (i + 1 - 5)),
   listMean (((df.map (fun r => r.AST)).take (i + 1)).drop (i + 1 - 5)),
   listMean (((df.map (fun r => r.FG3M)).take (i + 1)).drop (i + 1 - 5)),
   listMean (((df.map (fun r => r.MIN)).take (i + 1)).drop (i + 1 - 5)))

/-- A concrete six-game log for the C5 witness. -/
def logW : List LogRow :=
  [⟨20, 5, 3, 2, 30⟩, ⟨25, 6, 4, 3, 32⟩, ⟨18, 7, 2, 1, 28⟩,
   ⟨30, 8, 5, 4, 36⟩, ⟨22, 4, 6, 2, 31⟩, ⟨27, 9, 3, 3, 34⟩]

/-- IEEE `≤` on floats as a Boolean (comparisons with NaN are `false`). -/
def pyLEb : PyFloat → PyFloat → Bool
  | .nan, _ => false
  | _, .nan => false
  | .ninf, _ => true
  | _, .pinf => true
  | .pinf, _ => false
  | .fin _, .ninf => false
  | .fin a, .fin b => decide (a ≤ b)

/-- The ordering claimed of consecutive output rows: the later cell is NaN, or
both cells are defined and the later one is `≤` the earlier one (descending
order with NaN rows last). -/
def edgeDescOrder (a b : PyFloat) : Prop := b.isNan = true ∨ pyLEb b a = true

/-- Concrete model context for the `run_model_predictions` witnesses: two
cached games for one player, a trivial std, and a prediction function that
echoes the first feature column (one prediction per row, as sklearn does). -/
def ctxW : Ctx where
  logsOf := fun name =>
    if name = "LeBron James" then [⟨1, 30, 8, 9, 2⟩, ⟨0, 24, 6, 7, 1⟩] else []
  stdFn := fun _ => 1
  fitPredict := fun X _y => X.map (fun t => t.1)
  fitPredict_length := fun X _y => by simp

/-- A single-line odds frame for the C8 witness. -/
def dfW : List PropRow := [⟨"LeBron James", "PTS", 25⟩]

/-- The result `run_model_predictions` produces on `ctxW`/`dfW`. -/
def resW : RunResult := (run_model_predictions ctxW dfW).toOption.getD default

/-- A single-line odds frame for the C9 witness. -/
def dfW9 : List PropRow := [⟨"LeBron James", "PTS", 30⟩]

/-- The result `run_model_predictions` produces on `ctxW`/`dfW9`. -/
def resW9 : RunResult := (run_model_predictions ctxW dfW9).toOption.getD default

/-- Context for the C1 failing input: game logs exist for players `A` and `B`
but not for `C` — the Projection set is `{A:PTS, B:REB}` (and every other
stat of `A`/`B`), while `C` has no Projection. -/
def ctxC1 : Ctx where
  logsOf := fun name =>
    if name = "A" then [⟨1, 28, 5, 4, 3⟩, ⟨0, 26, 7, 6, 2⟩]
    else if name = "B" then [⟨0, 10, 9, 3, 1⟩, ⟨1, 12, 11, 5, 2⟩]
    else []
  stdFn := fun _ => 1
  fitPredict := fun X _y => X.map (fun t => t.1)
  fitPredict_length := fun X _y => by simp

/-- The C1 failing PropLine set: `{A:PTS, C:AST}` — `C:AST` has a PropLine but
no Projection. -/
def dfC1 : List PropRow := [⟨"A", "PTS", 25⟩, ⟨"C", "AST", 9⟩]

/-! ## Helper lemmas -/

/-- `fetch_games_today` has no raising path: every branch returns `.ok`. -/
theorem fetch_games_today_never_raises (env : HttpOutcome (List BDLGame)) :
    (fetch_games_today env).isOk = true := by
  cases env with
  | connError m => rfl
  | response status body =>
    rcases body with e | data
    · by_cases hs : status = 200 <;> simp [fetch_games_today, hs, Except.isOk, Except.toBool]
    · by_cases hs : status = 200 <;> by_cases hd : data.isEmpty <;>
        simp [fetch_games_today, hs, hd, Except.isOk, Except.toBool]

/-- `fetch_oddsapi_data` has no raising path. -/
theorem fetch_oddsapi_data_never_raises (env : HttpOutcome (List OAGame)) :
    (fetch_oddsapi_data env).isOk = true := by
  cases env with
  | connError m => rfl
  | response status body =>
    rcases body with e | data <;> by_cases hs : status = 200 <;>
      simp [fetch_oddsapi_data, hs, Except.isOk, Except.toBool]

/-- `fetch_prizepicks_data` has no raising path. -/
theorem fetch_prizepicks_data_never_raises (env : HttpOutcome PPPayload) :
    (fetch_prizepicks_data env).isOk = true := by
  cases env with
  | connError m => rfl
  | response status body =>
    rcases body with e | raw <;> by_cases hs : status = 200 <;>
      simp [fetch_prizepicks_data, hs, Except.isOk, Except.toBool]

/-- On any of the spec's failure environments, `fetch_oddsapi_data` returns
the empty record set. -/
theorem fetch_oddsapi_data_on_failure (env : HttpOutcome (List OAGame))
    (hf : httpFailure env = true) : fetch_oddsapi_data env = .ok [] := by
  cases env with
  | connError m => rfl
  | response status body =>
    rcases body with e | data
    · by_cases hs : status = 200 <;> simp [fetch_oddsapi_data, hs]
    · have hs : status ≠ 200 := by
        simpa [httpFailure, Except.isOk, Except.toBool] using hf
      simp [fetch_oddsapi_data, hs]

/-- On any of the spec's failure environments, `fetch_games_today` returns
the empty record set. -/
theorem fetch_games_today_on_failure (env : HttpOutcome (List BDLGame))
    (hf : httpFailure env = true) : fetch_games_today env = .ok [] := by
  cases env with
  | connError m => rfl
  | response status body =>
    rcases body with e | data
    · by_cases hs : status = 200 <;> simp [fetch_games_today, hs]
    · have hs : status ≠ 200 := by
        simpa [httpFailure, Except.isOk, Except.toBool] using hf
      simp [fetch_games_today, hs]

/-- On any of the spec's failure environments, `fetch_prizepicks_data` returns
the empty record set. -/
theorem fetch_prizepicks_data_on_failure (env : HttpOutcome PPPayload)
    (hf : httpFailure env = true) : fetch_prizepicks_data env = .ok [] := by
  cases env with
  | connError m => rfl
  | response status body =>
    rcases body with e | raw
    · by_cases hs : status = 200 <;> simp [fetch_prizepicks_data, hs]
    · have hs : status ≠ 200 := by
        simpa [httpFailure, Except.isOk, Except.toBool] using hf
      simp [fetch_prizepicks_data, hs]

/-! ## Claims -/

/-- **C3.** For projection 27.0 against the line 25.5, the edge computation of
`run_model_predictions` yields `edge_pct = 5.88` (that is `147/25`, the
two-decimal rounding of `|27 − 25.5| / 25.5 · 100 = 100/17 ≈ 5.882…`),
`expected_value_over = 1.5 · (27 − 25.5) = 2.25` and
`expected_value_under = 1.5 · (25.5 − 27) = −2.25`. -/
theorem C3_edge_computation_at_27_vs_25_5 :
    edge_pct_formula (.fin 27) (.fin (51/2)) = .fin (147/25) ∧
    expected_value_over_formula (.fin 27) (.fin (51/2)) = .fin (9/4) ∧
    expected_value_under_formula (.fin 27) (.fin (51/2)) = .fin (-(9/4)) := by
  have hfl : (⌊(10000:ℚ)/17⌋ : ℤ) = 588 := by norm_num [Int.floor_eq_iff]
  have hr : roundHalfEven ((10000:ℚ)/17) = 588 := by
    simp only [roundHalfEven, hfl]
    rw [if_pos (by norm_num)]
  refine ⟨?_, ?_, ?_⟩
  · simp only [edge_pct_formula, PyFloat.sub, PyFloat.abs, PyFloat.div]
    rw [if_pos (by norm_num : ((51:ℚ)/2) ≠ 0)]
    simp only [PyFloat.mul, npRound2, PyFloat.fin.injEq]
    rw [show (27:ℚ) - 51/2 = 3/2 by norm_num, abs_of_pos (by norm_num : (0:ℚ) < 3/2)]
    rw [show (3:ℚ)/2 / (51/2) * 100 * 100 = 10000/17 by norm_num, hr]
    norm_num
  · simp only [expected_value_over_formula, PyFloat.sub, PyFloat.mul, PyFloat.fin.injEq]
    norm_num
  · simp only [expected_value_under_formula, PyFloat.sub, PyFloat.mul, PyFloat.fin.injEq]
    norm_num

/-- **C2 (counterexample).** The claim says the edge computation on a zero
line "never produces an infinite edge_pct value"; but at projection 27.0 and
line 0 the unguarded vectorized division yields `edge_pct = +∞`. -/
theorem C2_cx_zero_line_yields_infinity :
    edge_pct_formula (.fin 27) (.fin 0) = PyFloat.pinf := by
  simp only [edge_pct_formula, PyFloat.sub, PyFloat.abs, PyFloat.div]
  rw [if_neg (by norm_num), if_pos (by norm_num : (0:ℚ) < |27 - 0|)]
  simp only [PyFloat.mul]
  rw [if_pos (by norm_num : (0:ℚ) < 100)]
  rfl

/-- **C2 (amended).** On a zero line the edge computation never raises (the
embedded numpy operations are total), but it does **not** signal a separate
"not computable" outcome: `edge_pct` evaluates to `+∞` for every nonzero
projection and to NaN for a zero projection. -/
theorem C2_zero_line_never_raises_but_is_infinite (X : ℚ) :
    edge_pct_formula (.fin X) (.fin 0) =
      (if X = 0 then PyFloat.nan else PyFloat.pinf) := by
  by_cases h : X = 0
  · subst h
    rw [if_pos rfl]
    have h00 : |(0:ℚ) - 0| = 0 := by norm_num
    simp only [edge_pct_formula, PyFloat.sub, PyFloat.abs, PyFloat.div, h00]
    rw [if_neg (by norm_num), if_neg (by norm_num), if_neg (by norm_num)]
    rfl
  · rw [if_neg h]
    have habs : (0:ℚ) < |X - 0| := by
      simpa using abs_pos.mpr h
    simp only [edge_pct_formula, PyFloat.sub, PyFloat.abs, PyFloat.div]
    rw [if_neg (by norm_num), if_pos habs]
    simp only [PyFloat.mul]
    rw [if_pos (by norm_num : (0:ℚ) < 100)]
    rfl

/-- **C4 (counterexample).** The claim says every adapter fetch returns an
empty result rather than raising; but `fetch_fanduel_props` raises even in the
benign environment where the WebDriver initializes and the scrape loop runs to
completion: its snapshot block evaluates the unimported name `datetime`. -/
theorem C4_cx_fanduel_raises :
    fetch_fanduel_props ⟨.ok (), []⟩ =
      .error "NameError: name datetime is not defined" := rfl

/-- **C4 (amended).** Three of the four adapters — `fetch_oddsapi_data`,
`fetch_games_today`, `fetch_prizepicks_data` — absorb connectivity failures,
malformed payloads and non-success status codes and return an empty result,
never raising; `fetch_fanduel_props`, whose body is a `try/finally` with no
`except`, instead raises in every environment (a `WebDriverException` from
driver initialization propagates, and every surviving run raises `NameError`
on the unimported `datetime`). -/
theorem C4_adapters_error_policy (e1 : FDEnv) (e2 : HttpOutcome (List OAGame))
    (e3 : HttpOutcome (List BDLGame)) (e4 : HttpOutcome PPPayload) :
    (fetch_fanduel_props e1).isOk = false ∧
    ((fetch_oddsapi_data e2).isOk = true ∧
      (httpFailure e2 = true → fetch_oddsapi_data e2 = .ok [])) ∧
    ((fetch_games_today e3).isOk = true ∧
      (httpFailure e3 = true → fetch_games_today e3 = .ok [])) ∧
    ((fetch_prizepicks_data e4).isOk = true ∧
      (httpFailure e4 = true → fetch_prizepicks_data e4 = .ok [])) := by
  refine ⟨?_, ⟨fetch_oddsapi_data_never_raises e2, fetch_oddsapi_data_on_failure e2⟩,
    ⟨fetch_games_today_never_raises e3, fetch_games_today_on_failure e3⟩,
    ⟨fetch_prizepicks_data_never_raises e4, fetch_prizepicks_data_on_failure e4⟩⟩
  cases h : e1.driverInit <;> simp [fetch_fanduel_props, h, Except.isOk, Except.toBool]

/-- **C4 (witness).** Concrete failure environments: a driver-init failure for
the scraper, a connectivity failure, a 500 status and a malformed payload for
the three API adapters. -/
theorem C4_adapters_error_policy_witness :
    (fetch_fanduel_props ⟨.error "WebDriverException: no chrome binary", []⟩).isOk = false ∧
    fetch_oddsapi_data (.connError "timeout") = .ok [] ∧
    fetch_games_today (.response 500 (.error "rate limited")) = .ok [] ∧
    fetch_prizepicks_data (.response 200 (.error "bad json")) = .ok [] := by
  have h := C4_adapters_error_policy ⟨.error "WebDriverException: no chrome binary", []⟩
    (.connError "timeout") (.response 500 (.error "rate limited"))
    (.response 200 (.error "bad json"))
  exact ⟨h.1, h.2.1.2 (by decide), h.2.2.1.2 (by decide), h.2.2.2.2 (by decide)⟩

/-- **C6.** For every filesystem state in which the games snapshot is missing
or zero-byte, `load_games_snapshot` performs exactly one `fetch_games_today`
call and never raises (its result is `.ok` in every fetch environment, since
`fetch_games_today` itself absorbs all its failures). -/
theorem C6_load_snapshot_missing_or_empty (fs : Option SnapshotFile)
    (env : HttpOutcome (List BDLGame))
    (h : fs = none ∨ ∃ f, fs = some f ∧ f.size = 0) :
    (load_games_snapshot fs env).2 = 1 ∧
    ((load_games_snapshot fs env).1).isOk = true := by
  rcases h with h | ⟨f, hf, hsize⟩
  · subst h
    exact ⟨rfl, fetch_games_today_never_raises env⟩
  · subst hf
    have hlt : f.size < 10 := by omega
    simp only [load_games_snapshot]
    rw [if_pos hlt]
    exact ⟨rfl, fetch_games_today_never_raises env⟩

/-- **C6 (witness).** A missing snapshot file with the network down: one fetch
call, no exception. -/
theorem C6_load_snapshot_witness :
    (load_games_snapshot none (.connError "down")).2 = 1 ∧
    ((load_games_snapshot none (.connError "down")).1).isOk = true :=
  C6_load_snapshot_missing_or_empty none (.connError "down") (Or.inl rfl)

/-- **C7.** In every fetch cycle of `app.py` where the FanDuel scraper
(adapter 1) yields an empty frame and the OddsAPI game-odds fetch (adapter 2)
yields a nonempty frame, the odds input selected for the model equals
adapter 2's rows exactly, and the PrizePicks last-resort adapter (adapter 3)
is never invoked during the cycle — `app.py` never calls it at all. -/
theorem C7_fallback_ordering (fdRes : Except String (List FDRec))
    (gamesRes : List GameRec) (oddsRes : List OddsGameRec)
    (h1 : (app_data_fetch fdRes gamesRes oddsRes).fanduel_df = [])
    (h2 : oddsRes ≠ []) :
    select_input_odds (app_data_fetch fdRes gamesRes oddsRes).fanduel_df
        (app_data_fetch fdRes gamesRes oddsRes).odds_game_df = .gameOdds oddsRes ∧
    Adapter.prizePicks ∉ (app_data_fetch fdRes gamesRes oddsRes).invoked := by
  constructor
  · rw [h1]
    show select_input_odds [] oddsRes = _
    simp [select_input_odds, List.isEmpty_iff, h2]
  · simp [app_data_fetch]

/-- **C7 (witness).** Adapter 1 empty, adapter 2 returning 12 rows. -/
theorem C7_fallback_ordering_witness :
    select_input_odds
        (app_data_fetch (.ok []) [] (List.replicate 12 ⟨"LAL vs BOS", "h2h", none, none, none⟩)).fanduel_df
        (app_data_fetch (.ok []) [] (List.replicate 12 ⟨"LAL vs BOS", "h2h", none, none, none⟩)).odds_game_df =
      .gameOdds (List.replicate 12 ⟨"LAL vs BOS", "h2h", none, none, none⟩) ∧
    Adapter.prizePicks ∉
      (app_data_fetch (.ok []) [] (List.replicate 12 ⟨"LAL vs BOS", "h2h", none, none, none⟩)).invoked :=
  C7_fallback_ordering (.ok []) [] (List.replicate 12 ⟨"LAL vs BOS", "h2h", none, none, none⟩)
    rfl (by decide)

/-- **C10.** Every record emitted by the PrizePicks fallback adapter carries
the constant pseudo-odds `-119` on both sides and the book `"PrizePicks"`; no
record with differing over/under prices is ever produced. -/
theorem C10_prizepicks_constant_odds (env : HttpOutcome PPPayload) (l : List PPRec)
    (h : fetch_prizepicks_data env = .ok l) :
    ∀ r ∈ l, r.odds_over = -119 ∧ r.odds_under = -119 ∧ r.book = "PrizePicks" := by
  intro r hr
  cases env with
  | connError m =>
    simp only [fetch_prizepicks_data, Except.ok.injEq] at h
    subst h
    cases hr
  | response status body =>
    simp only [fetch_prizepicks_data] at h
    by_cases hs : status ≠ 200
    · rw [if_pos hs] at h
      cases h; cases hr
    · rw [if_neg hs] at h
      cases body with
      | error e => cases h; cases hr
      | ok raw =>
        simp only [Except.ok.injEq] at h
        subst h
        rcases List.mem_filterMap.mp hr with ⟨proj, _, hpr⟩
        cases hattr : proj.attributes with
        | none => rw [hattr] at hpr; cases hpr
        | some attr =>
          rw [hattr] at hpr
          simp only [] at hpr
          by_cases hlg : attr.league_id = some 7
          · rw [if_pos hlg] at hpr
            cases hpr
            exact ⟨rfl, rfl, rfl⟩
          · rw [if_neg hlg] at hpr; cases hpr

/-- `dropna` keeps row `i` exactly when the 5-game window is full at `i`. -/
theorem droppedRows_eq (df : List LogRow) :
    droppedRows df = (List.range df.length).filterMap
      (fun i => if 4 ≤ i then some (keptBody df i) else none) := by
  unfold droppedRows
  congr 1
  funext i
  by_cases h : 4 ≤ i
  · have h5 : 5 ≤ i + 1 := by omega
    simp [augRow, rollingMean5At, keptBody, h, h5]
  · have h5 : ¬5 ≤ i + 1 := by omega
    simp [augRow, rollingMean5At, h, h5]

/-- Counting the kept indices of a 5-window filter over `range n`. -/
theorem filterMap_window_length {α : Type} (n : ℕ) (g : ℕ → α) :
    ((List.range n).filterMap
      (fun i => if 4 ≤ i then some (g i) else none)).length = n - 4 := by
  induction n with
  | zero => rfl
  | succ n ih =>
    rw [List.range_succ, List.filterMap_append, List.length_append, ih]
    have hsing : (List.filterMap (fun i => if 4 ≤ i then some (g i) else none) [n]).length
        = if 4 ≤ n then 1 else 0 := by
      by_cases h : 4 ≤ n <;> simp [h]
    rw [hsing]
    by_cases h : 4 ≤ n
    · rw [if_pos h]; omega
    · rw [if_neg h]; omega

/-- The row count that survives `dropna`. -/
theorem droppedRows_length (df : List LogRow) :
    (droppedRows df).length = df.length - 4 := by
  rw [droppedRows_eq, filterMap_window_length]

/-- **C5 (counterexample).** The claim says a log of length `L` produces
`max(0, L − W + 1)` feature rows for every `L`; at `L = 0` that is `0` rows,
but `prepare_training_data` raises `ValueError` on an empty frame instead. -/
theorem C5_cx_empty_log_raises :
    prepare_training_data ([] : List LogRow) "PTS" =
      .error "ValueError: Missing target column" := rfl

/-- **C5 (amended).** For every **non-empty** game log whose columns contain
the target statistic, `prepare_training_data` (window `W = 5`) produces
exactly `max(0, L − 5 + 1)` feature rows and as many target cells — rows
before the window is full are dropped, not zero-filled; an empty log (or a
target column absent from the frame, e.g. `PRA` on a raw log) raises
`ValueError` instead. -/
theorem C5_rolling_feature_row_count (df : List LogRow) (target : String)
    (h1 : df ≠ []) (h2 : target ∈ logColumns) :
    ∃ X y, prepare_training_data df target = .ok (X, y) ∧
      (X.length : ℤ) = max 0 ((df.length : ℤ) - 5 + 1) ∧
      (y.length : ℤ) = max 0 ((df.length : ℤ) - 5 + 1) := by
  have hcond : ¬(df.isEmpty ∨ target ∉ logColumns) := by
    simp [List.isEmpty_iff, h1, h2]
  refine ⟨(droppedRows df).map (fun k => (k.2.1, k.2.2.1, k.2.2.2.1, k.2.2.2.2.1, k.2.2.2.2.2,
      k.1.PTS + k.1.REB + k.1.AST)),
    (droppedRows df).map (fun k => k.1.cell target), ?_, ?_, ?_⟩
  · unfold prepare_training_data
    rw [if_neg hcond]
  · rw [List.length_map, droppedRows_length]
    omega
  · rw [List.length_map, droppedRows_length]
    omega

/-- **C5 (witness).** A six-game log with target `PTS`: the call succeeds and
produces exactly `max(0, 6 − 5 + 1) = 2` feature rows. -/
theorem C5_rolling_feature_row_count_witness :
    ∃ X y, prepare_training_data logW "PTS" = .ok (X, y) ∧
      (X.length : ℤ) = max 0 ((logW.length : ℤ) - 5 + 1) ∧
      (y.length : ℤ) = max 0 ((logW.length : ℤ) - 5 + 1) :=
  C5_rolling_feature_row_count logW "PTS" (by simp [logW]) (by simp [logColumns])

/-- The sorting comparator `rowLE` realizes the claimed row order. -/
theorem rowLE_imp_edgeDescOrder {a b : OutRow} (h : rowLE a b) :
    edgeDescOrder a.edge_pct b.edge_pct := by
  rcases h with h | ⟨h1, h2⟩ <;>
    cases ha : a.edge_pct <;> cases hb : b.edge_pct <;>
    simp_all [edgeRank, edgeNegVal, edgeDescOrder, pyLEb, PyFloat.isNan]

/-- Relabelling indices does not change the `edge_pct` column. -/
theorem resetIndexFrom_map_edge (k : ℕ) (l : List OutRow) :
    (resetIndexFrom k l).map (fun r => r.edge_pct) = l.map (fun r => r.edge_pct) := by
  induction l generalizing k with
  | nil => rfl
  | cons r rs ih => simp [resetIndexFrom, ih]

/-- Relabelling indices from `k` produces the labels `k, k+1, …`. -/
theorem resetIndexFrom_map_idx (k : ℕ) (l : List OutRow) :
    (resetIndexFrom k l).map (fun r => r.idx) = List.range' k l.length := by
  induction l generalizing k with
  | nil => rfl
  | cons r rs ih => simp [resetIndexFrom, ih, List.range'_succ]

/-- Relabelling indices preserves the row count. -/
theorem resetIndexFrom_length (k : ℕ) (l : List OutRow) :
    (resetIndexFrom k l).length = l.length := by
  induction l generalizing k with
  | nil => rfl
  | cons r rs ih => simp [resetIndexFrom, ih]

/-- Inversion of `run_model_predictions` on its non-raising paths: the result
is either the empty default frame (early returns) or the instrumented record
of the main path. -/
theorem run_model_predictions_ok (ctx : Ctx) (df : List PropRow) (res : RunResult)
    (h : run_model_predictions ctx df = .ok res) :
    res = default ∨
    res = { fitCalled := true
            fitX := trainX (df.filterMap (fun row =>
              build_recent_features ctx row.player row.prop_type))
            fitY := trainY (df.filterMap (fun row =>
              build_recent_features ctx row.player row.prop_type))
            rows := reset_index (List.insertionSort rowLE
              (((leftMerge df (df.filterMap (fun row =>
                    build_recent_features ctx row.player row.prop_type))).zip
                  (ctx.fitPredict
                    (trainX (df.filterMap (fun row =>
                      build_recent_features ctx row.player row.prop_type)))
                    (trainY (df.filterMap (fun row =>
                      build_recent_features ctx row.player row.prop_type))))).enum.map
                (fun p => mkOutRow p.1 p.2.1.1 p.2.1.2 p.2.2))) } := by
  unfold run_model_predictions at h
  by_cases h1 : df.isEmpty
  · rw [if_pos h1] at h
    injection h with h
    exact Or.inl h.symm
  · rw [if_neg h1] at h
    by_cases h2 : (df.filterMap (fun row =>
        build_recent_features ctx row.player row.prop_type)).isEmpty
    · rw [if_pos h2] at h
      injection h with h
      exact Or.inl h.symm
    · rw [if_neg h2] at h
      by_cases h3 : (ctx.fitPredict
            (trainX (df.filterMap (fun row =>
              build_recent_features ctx row.player row.prop_type)))
            (trainY (df.filterMap (fun row =>
              build_recent_features ctx row.player row.prop_type)))).length ≠
          (leftMerge df (df.filterMap (fun row =>
            build_recent_features ctx row.player row.prop_type))).length
      · rw [if_pos h3] at h
        cases h
      · rw [if_neg h3] at h
        injection h with h
        exact Or.inr h.symm

/-- **C10 (witness).** A concrete NBA projection payload produces a record,
and that record carries odds `-119` on both sides and book `"PrizePicks"`. -/
theorem C10_prizepicks_witness :
    ppRecW.odds_over = -119 ∧ ppRecW.odds_under = -119 ∧ ppRecW.book = "PrizePicks" :=
  C10_prizepicks_constant_odds ppEnvW ppListW rfl ppRecW
    ((show ppListW = [ppRecW] from rfl) ▸ List.Mem.head _)

/-- **C1 (code bug).** The claim (and the spec invariant) says that on
Projections `{A:PTS, B:REB}` and PropLines `{A:PTS, C:AST}` exactly one
EdgeResult (`A:PTS`) is produced and none for the unmatched pairs.  The code
instead **raises**: it left-merges `feat_df` (1 row) onto `fanduel_df`
(2 rows) and then assigns the length-1 `preds` array to the length-2 merged
frame, a pandas `ValueError` — no EdgeResult set is produced at all. -/
theorem C1_partial_match_raises :
    run_model_predictions ctxC1 dfC1 =
      .error "ValueError: Length of values does not match length of index" := rfl

/-- **C8.** Whenever `run_model_predictions` fits its model (every run with a
non-empty feature set), the regression target vector `y` passed to
`model.fit(X, y)` is identically the `recent_mean` column — the first column
of the feature matrix `X` and the player's own trailing rolling mean. -/
theorem C8_target_is_recent_mean (ctx : Ctx) (df : List PropRow) (res : RunResult)
    (h : run_model_predictions ctx df = .ok res) (hfit : res.fitCalled = true) :
    res.fitY = res.fitX.map (fun t => t.1) ∧
    res.fitY = (df.filterMap (fun row =>
      build_recent_features ctx row.player row.prop_type)).map (fun f => f.recent_mean) := by
  rcases run_model_predictions_ok ctx df res h with hres | hres
  · rw [hres] at hfit
    exact absurd hfit Bool.false_ne_true
  · rw [hres]
    constructor
    · simp [trainX, trainY, List.map_map]
    · rfl

/-- **C8 (witness).** The concrete run on `ctxW`/`dfW` fits the model, and its
target vector is the `recent_mean` column. -/
theorem C8_target_is_recent_mean_witness :
    resW.fitY = resW.fitX.map (fun t => t.1) ∧
    resW.fitY = (dfW.filterMap (fun row =>
      build_recent_features ctxW row.player row.prop_type)).map (fun f => f.recent_mean) :=
  C8_target_is_recent_mean ctxW dfW resW rfl rfl

/-- **C9.** Every result frame `run_model_predictions` returns is ordered by
`edge_pct` descending — each later row is NaN or carries an `edge_pct` no
larger than every earlier defined one — with NaN rows after all defined rows,
and its index is reset to `0, …, n−1`. -/
theorem C9_rows_sorted_and_reindexed (ctx : Ctx) (df : List PropRow) (res : RunResult)
    (h : run_model_predictions ctx df = .ok res) :
    List.Pairwise edgeDescOrder (res.rows.map (fun r => r.edge_pct)) ∧
    res.rows.map (fun r => r.idx) = List.range res.rows.length := by
  rcases run_model_predictions_ok ctx df res h with hres | hres
  · rw [hres]
    exact ⟨List.Pairwise.nil, rfl⟩
  · rw [hres]
    constructor
    · show List.Pairwise edgeDescOrder ((reset_index _).map (fun r => r.edge_pct))
      rw [reset_index, resetIndexFrom_map_edge]
      rw [List.pairwise_map]
      exact (List.sorted_insertionSort rowLE _).imp (fun hab => rowLE_imp_edgeDescOrder hab)
    · show (reset_index _).map (fun r => r.idx) = List.range (reset_index _).length
      rw [reset_index, resetIndexFrom_map_idx, resetIndexFrom_length, List.range_eq_range']

/-- **C9 (witness).** The concrete run on `ctxW`/`dfW9` returns a frame that
is sorted by `edge_pct` descending with a reset index. -/
theorem C9_rows_sorted_and_reindexed_witness :
    List.Pairwise edgeDescOrder (resW9.rows.map (fun r => r.edge_pct)) ∧
    resW9.rows.map (fun r => r.idx) = List.range resW9.rows.length :=
  C9_rows_sorted_and_reindexed ctxW dfW9 resW9 rfl

end NBADASH
